import Mathlib

/-!
Shallow embedding of the detour/traversal pipeline in
`Traversals_121820.py` and `Detours_121820.py`.

Nullable geodatabase DOUBLE fields are modelled as `Option ℚ`.
An arcpy CalculateField expression over nullable operands produces no
numeric value for a row whose operand is null (the Python expression
raises on `None`), so the field-level arithmetic is `Option`-valued  and
a null operand propagates to a null result, never to a numeric default.
-/

namespace AgBridges

/-- Permitted snapping sources (`snappables = ["Network_LocalStreets"]`,
Traversals line 61 and Detours line 52). -/
def snappables : List String := ["Network_LocalStreets"]

/-- Distance-weighting cutoff constant (`cutoff = '1'`, Traversals line 72). -/
def cutoff : ℚ := 1

/-- Distance-weighting power constant (`power = '1'`, Traversals line 73). -/
def power : ℕ := 1

/-- CalculateField subtraction `!A!-!B!` over nullable DOUBLE fields. -/
def fieldSub (a b : Option ℚ) : Option ℚ :=
  match a, b with
  | some x, some y => some (x - y)
  | _, _ => none

/-- CalculateField multiplication `!A!*!B!` over nullable DOUBLE fields. -/
def fieldMul (a b : Option ℚ) : Option ℚ :=
  match a, b with
  | some x, some y => some (x * y)
  | _, _ => none

/-- Embedding of the `zeroNulls` code block (Traversals lines 293-298):
a null field value becomes 0, any other value is returned unchanged. -/
def zeroNulls : Option ℚ → ℚ
  | none => 0
  | some v => v

/-- Frequency-tool summation of a nullable summary field over grouped rows
(null contributions are ignored, i.e. treated as 0). -/
def sumOpt (l : List (Option ℚ)) : ℚ := (l.map zeroNulls).sum

/-- Embedding of the `"+".join(fieldList)` sum expression
(Traversals lines 308-323): the expression `!f1!+!f2!+...` evaluates
left-associatively; an empty field list yields an empty expression,
which is not a value. -/
def sumExpJoin : List ℚ → Option ℚ
  | [] => none
  | f :: fs => some (fs.foldl (· + ·) f)

/-- Business point row: OBJECTID, raw trucking intensity `Truck_Int_Raw`,
and the derived `Truck_Int` field (null before it is calculated). -/
structure Business where
  objectID : Int
  truckIntRaw : ℚ
  truckInt : Option ℚ

/-- Embedding of Traversals lines 96-99: `Truck_Int` is calculated once,
before the per-destination loop, as `!Truck_Int_Raw!/len(dests)`.
A zero destination count would make the Python expression raise, so the
field stays null in that case. -/
def addTruckInt (numDests : ℕ) (b : Business) : Business :=
  { b with truckInt := if numDests = 0 then none else some (b.truckIntRaw / (numDests : ℚ)) }

/-- Row of a per-direction `Bridges_by_Bus_*` table (Traversals lines
176-228) and of its copy `detours_*` (Detours lines 92-96), which adds
the `No_Bridge_Time` field. Joined fields are nullable. -/
structure BridgeBusRow where
  businessID : Int
  brdgNbr : String
  baseLength : Option ℚ
  busToBridgeMu : Option ℚ
  busToBridgeMi : Option ℚ
  truckInt : Option ℚ
  truckIntDW : Option ℚ
  noBridgeTime : Option ℚ
  shape : Option String

/-- Embedding of Traversals line 223: `!BUS_TO_BRIDGE_MU!/5280`. -/
def calcBusToBridgeMi (mu : Option ℚ) : Option ℚ := mu.map (fun v => v / 5280)

/-- Embedding of Traversals line 228:
`(!Truck_Int!*cutoff)/(!BUS_TO_BRIDGE_MI!**(power))`. The Python
expression raises ZeroDivisionError when the denominator is zero, so the
result is `none` exactly when the distance raised to the power is zero. -/
def calcTruckIntDW (ti c : ℚ) (p : ℕ) (d : ℚ) : Option ℚ :=
  if d ^ p = 0 then none else some ((ti * c) / d ^ p)

/-- Embedding of Detours lines 187-190: `DET_TIME` is
`!No_Bridge_Time!-!Base_Length!`. -/
def DET_TIME (r : BridgeBusRow) : Option ℚ := fieldSub r.noBridgeTime r.baseLength

/-- Embedding of Detours lines 192-195: `JOB_DET_TIME` is
`!DET_TIME!*!Truck_Int!`. -/
def JOB_DET_TIME (r : BridgeBusRow) : Option ℚ := fieldMul (DET_TIME r) r.truckInt

/-- Embedding of Detours lines 197-200: `DISTW_JOB_DET_TIME` is
`!DET_TIME!*!Truck_Int_DW!`. -/
def DISTW_JOB_DET_TIME (r : BridgeBusRow) : Option ℚ := fieldMul (DET_TIME r) r.truckIntDW

/-- Embedding of the composite string key
`"{0},{1}".format(businessID, bridgeNumber)` (Detours lines 162 and 169). -/
def detKey (busID : Int) (brdg : String) : String := toString busID ++ "," ++ brdg

/-- Embedding of Detours lines 152-164: the solved route row. When the
barred solve produced a route, the row carries its total length and
geometry; when no route was found (StopIteration or solver failure), the
row is `[detourBusID, None, None]`. -/
def routeRowOf (busID : Int) (res : Option (ℚ × String)) : Int × Option ℚ × Option String :=
  match res with
  | some (len, g) => (busID, some len, some g)
  | none => (busID, none, none)

/-- Embedding of the update-cursor body (Detours lines 167-173): a row
whose concatenated key equals the solved key receives the route length
as `No_Bridge_Time` and the route geometry; any other row is unchanged. -/
def updateRow (key : String) (val : Option ℚ) (g : Option String) (r : BridgeBusRow) :
    BridgeBusRow :=
  if detKey r.businessID r.brdgNbr = key then { r with noBridgeTime := val, shape := g } else r

/-- Embedding of one barred-bridge solve write-back pass over the detours
table (Detours lines 152-173). -/
def applyBarredResult (sb : Int) (sbr : String) (res : Option (ℚ × String))
    (rows : List BridgeBusRow) : List BridgeBusRow :=
  rows.map (updateRow (detKey sb sbr) (routeRowOf sb res).2.1 (routeRowOf sb res).2.2)

/-- Summary row of a per-direction `{dest}_FreqTable` (Traversals line
271): group count plus sums of `Truck_Int` and `Truck_Int_DW`. -/
structure TravSums where
  frequency : ℕ
  truckIntSum : ℚ
  truckIntDWSum : ℚ

/-- Embedding of `Frequency_analysis(bridgeTable, freqTable, BRDG_NBR,
[Truck_Int, Truck_Int_DW])` (Traversals line 271) followed by the lookup
a `JoinField_management` performs (line 282): the Frequency tool emits a
row only for bridge numbers that occur in the input, so a bridge with no
rows has no summary. -/
def freqTable (rows : List BridgeBusRow) (b : String) : Option TravSums :=
  let recs := rows.filter (fun r => r.brdgNbr = b)
  if recs.isEmpty then none
  else some ⟨recs.length, sumOpt (recs.map (fun r => r.truckInt)),
             sumOpt (recs.map (fun r => r.truckIntDW))⟩

/-- Per-direction `{dest}_TRAV_BUS` field joined onto the bridges table
(the renamed FREQUENCY count, Traversals lines 273-283). -/
def travBusField (rows : List BridgeBusRow) (b : String) : Option ℚ :=
  (freqTable rows b).map (fun s => (s.frequency : ℚ))

/-- Per-direction `{dest}_TRAV_JOB` field joined onto the bridges table
(the renamed `Truck_Int` sum, Traversals lines 276-283). -/
def travJobField (rows : List BridgeBusRow) (b : String) : Option ℚ :=
  (freqTable rows b).map (fun s => s.truckIntSum)

/-- Per-direction `{dest}_TRAV_JOB_DISTW` field joined onto the bridges
table (the renamed `Truck_Int_DW` sum, Traversals lines 279-283). -/
def travJobDWField (rows : List BridgeBusRow) (b : String) : Option ℚ :=
  (freqTable rows b).map (fun s => s.truckIntDWSum)

/-- Summary row of `Detours_by_Bridge` (Detours line 207): group count
plus sums of `DET_TIME`, `JOB_DET_TIME` and `DISTW_JOB_DET_TIME`. -/
structure DetourSums where
  frequency : ℕ
  detTimeSum : ℚ
  jobDetTimeSum : ℚ
  distwJobDetTimeSum : ℚ

/-- Embedding of `Frequency_analysis("Detours_Merged",
"Detours_by_Bridge", BRDG_NBR, [DET_TIME, JOB_DET_TIME,
DISTW_JOB_DET_TIME])` (Detours line 207) as the lookup the subsequent
`JoinField_management` (line 216) performs: a bridge with no detour rows
has no summary row. -/
def Detours_by_Bridge (records : List BridgeBusRow) (b : String) : Option DetourSums :=
  let recs := records.filter (fun r => r.brdgNbr = b)
  if recs.isEmpty then none
  else some ⟨recs.length, sumOpt (recs.map DET_TIME), sumOpt (recs.map JOB_DET_TIME),
             sumOpt (recs.map DISTW_JOB_DET_TIME)⟩

/-- Value of the `DET_TIME_SUM` field joined onto the bridges table for
bridge `b` (Detours lines 208-216): null when `Detours_by_Bridge` has no
row for `b`. -/
def detTimeSumField (records : List BridgeBusRow) (b : String) : Option ℚ :=
  (Detours_by_Bridge records b).map (fun s => s.detTimeSum)

/-- Per-direction field values for one bridge row of the bridges table:
one joined value per destination direction. -/
def perDirFields (f : List BridgeBusRow → String → Option ℚ)
    (tbls : List (List BridgeBusRow)) (b : String) : List (Option ℚ) :=
  tbls.map (fun t => f t b)

/-- Embedding of Traversals lines 292-310: the `zeroNulls` pass runs over
every per-direction traversal field, then `BUS_TRAV_SUM` is calculated as
the joined sum expression over the `*_TRAV_BUS` fields. -/
def BUS_TRAV_SUM (tbls : List (List BridgeBusRow)) (b : String) : Option ℚ :=
  sumExpJoin ((perDirFields travBusField tbls b).map zeroNulls)

/-- Embedding of Traversals lines 292-301 and 312-315: `JOB_TRAV_SUM`
over the zero-filled `*_TRAV_JOB` fields. -/
def JOB_TRAV_SUM (tbls : List (List BridgeBusRow)) (b : String) : Option ℚ :=
  sumExpJoin ((perDirFields travJobField tbls b).map zeroNulls)

/-- Embedding of Traversals lines 292-301 and 320-323:
`DISTW_JOB_TRAV_SUM` over the zero-filled `*_TRAV_JOB_DISTW` fields. -/
def DISTW_JOB_TRAV_SUM (tbls : List (List BridgeBusRow)) (b : String) : Option ℚ :=
  sumExpJoin ((perDirFields travJobDWField tbls b).map zeroNulls)

/-- Specification-side grand total, following the words of the spec: the
sum across all directions of the per-direction metric, with a missing
per-direction value treated as zero. Stated separately from the code-side
sums so the two can be compared. -/
def specGrandTotal (vals : List (Option ℚ)) : ℚ := (vals.map (fun o => o.getD 0)).sum

/-- Embedding of the snap-type assignment (Traversals lines 126-131 and
Detours lines 136-141): a network source receives snap type SHAPE when
its name is in `snappables`, and NONE otherwise. -/
def snapTypeFor (snaps : List String) (nm : String) : String :=
  if nm ∈ snaps then "SHAPE" else "NONE"

/-- Embedding of the `sourceNames` list of `[name, snapType]` pairs built
for `arcpy.na.AddLocations` (Traversals lines 126-137, Detours 136-146). -/
def sourceNames (snaps srcs : List String) : List (List String) :=
  srcs.map (fun nm => [nm, snapTypeFor snaps nm])

/-- Specification-side notion of a restricted network source: any source
whose name is not in the permitted local-street list. -/
def restrictedSource (snaps : List String) (nm : String) : Prop := nm ∉ snaps

/-! Helper lemmas about the field arithmetic. -/

theorem fieldSub_none_left (b : Option ℚ) : fieldSub none b = none := by
  cases b <;> rfl

theorem fieldMul_none_left (b : Option ℚ) : fieldMul none b = none := by
  cases b <;> rfl

theorem zeroNulls_fun_eq : zeroNulls = fun o => Option.getD o 0 :=
  funext (fun o => by cases o <;> rfl)

theorem foldl_add_eq_add_sum (l : List ℚ) (a : ℚ) : l.foldl (· + ·) a = a + l.sum := by
  induction l generalizing a with
  | nil => simp
  | cons x xs ih => rw [List.foldl_cons, ih, List.sum_cons]; ring

theorem sumExpJoin_eq_sum (l : List ℚ) (h : l ≠ []) : sumExpJoin l = some l.sum := by
  cases l with
  | nil => exact absurd rfl h
  | cons x xs => rw [sumExpJoin, foldl_add_eq_add_sum, List.sum_cons]

theorem code_sum_eq_specGrandTotal (vals : List (Option ℚ)) (h : vals ≠ []) :
    sumExpJoin (vals.map zeroNulls) = some (specGrandTotal vals) := by
  rw [specGrandTotal, zeroNulls_fun_eq]
  exact sumExpJoin_eq_sum _ (by simpa using h)

/-- C1: for every row of a per-direction detours table whose barred-path
cost (No_Bridge_Time) and baseline cost (Base_Length) are both present,
the DET_TIME field equals the barred-path cost minus the baseline cost. -/
theorem detTime_eq_barred_sub_base (r : BridgeBusRow) (nb bl : ℚ)
    (h1 : r.noBridgeTime = some nb) (h2 : r.baseLength = some bl) :
    DET_TIME r = some (nb - bl) := by
  rw [DET_TIME, h1, h2]
  rfl

/-- Witness for C1 at a concrete row with barred cost 10 and baseline 7. -/
theorem detTime_eq_barred_sub_base_witness :
    DET_TIME ⟨1, "B1", some 7, none, none, none, none, some 10, none⟩ = some (10 - 7) :=
  detTime_eq_barred_sub_base ⟨1, "B1", some 7, none, none, none, none, some 10, none⟩ 10 7 rfl rfl

/-- Counterexample for C2: at a negative business-to-bridge distance the
computation does not fail; with trucking intensity 10, cutoff 1 and
power 1 at distance -2 it returns the value -5. -/
theorem truckIntDW_negative_distance_succeeds :
    calcTruckIntDW 10 1 1 (-2) = some (-5) ∧ calcTruckIntDW 10 1 1 (-2) ≠ none := by
  have h1 : calcTruckIntDW 10 1 1 (-2) = some (-5) := by norm_num [calcTruckIntDW]
  exact ⟨h1, by rw [h1]; exact fun hc => Option.noConfusion hc⟩

/-- C2 (amended): the distance-weighted intensity equals
(truckIntensity * cutoffConstant) / (distanceMiles ^ powerConstant)
whenever the distance is nonzero, and the computation fails exactly when
the denominator is zero: for a positive power constant, when the
distance is zero. A negative distance yields the formula value. -/
theorem truckIntDW_formula_and_zero_fail (ti c d : ℚ) (p : ℕ) :
    (d ≠ 0 → calcTruckIntDW ti c p d = some ((ti * c) / d ^ p)) ∧
    (d = 0 → 0 < p → calcTruckIntDW ti c p d = none) := by
  constructor
  · intro hd
    rw [calcTruckIntDW, if_neg (pow_ne_zero p hd)]
  · intro hd hp
    subst hd
    rw [calcTruckIntDW, if_pos (zero_pow (Nat.pos_iff_ne_zero.mp hp))]

/-- Witness for C2 at distance 2 (succeeds with the formula value) and
at distance 0 (fails). -/
theorem truckIntDW_formula_and_zero_fail_witness :
    calcTruckIntDW 10 1 1 2 = some ((10 * 1) / 2 ^ 1) ∧ calcTruckIntDW 10 1 1 0 = none :=
  ⟨(truckIntDW_formula_and_zero_fail 10 1 2 1).1 (by norm_num),
   (truckIntDW_formula_and_zero_fail 10 1 0 1).2 rfl (by norm_num)⟩

/-- C3: when the barred-bridge solve finds no route, the write-back pass
stores null as No_Bridge_Time on every row matching the solved key, the
derived metrics of that row stay null (they are never coerced to a
numeric default), and the pass is total: the table keeps all its rows
and the updated row is in the output table. -/
theorem unreachable_barred_run_records_null (sb : Int) (sbr : String)
    (rows : List BridgeBusRow) (r : BridgeBusRow) (hr : r ∈ rows)
    (hm : detKey r.businessID r.brdgNbr = detKey sb sbr) :
    (updateRow (detKey sb sbr) (routeRowOf sb none).2.1 (routeRowOf sb none).2.2 r).noBridgeTime
        = none ∧
    DET_TIME (updateRow (detKey sb sbr) (routeRowOf sb none).2.1 (routeRowOf sb none).2.2 r)
        = none ∧
    JOB_DET_TIME (updateRow (detKey sb sbr) (routeRowOf sb none).2.1 (routeRowOf sb none).2.2 r)
        = none ∧
    DISTW_JOB_DET_TIME
        (updateRow (detKey sb sbr) (routeRowOf sb none).2.1 (routeRowOf sb none).2.2 r) = none ∧
    updateRow (detKey sb sbr) (routeRowOf sb none).2.1 (routeRowOf sb none).2.2 r
        ∈ applyBarredResult sb sbr none rows ∧
    (applyBarredResult sb sbr none rows).length = rows.length := by
  have hu : updateRow (detKey sb sbr) (routeRowOf sb none).2.1 (routeRowOf sb none).2.2 r
      = { r with noBridgeTime := none, shape := none } := by
    rw [routeRowOf, updateRow, if_pos hm]
  rw [hu]
  refine ⟨rfl, ?_, ?_, ?_, ?_, ?_⟩
  · exact fieldSub_none_left _
  · rw [JOB_DET_TIME, DET_TIME]
    show fieldMul (fieldSub none r.baseLength) r.truckInt = none
    rw [fieldSub_none_left, fieldMul_none_left]
  · rw [DISTW_JOB_DET_TIME, DET_TIME]
    show fieldMul (fieldSub none r.baseLength) r.truckIntDW = none
    rw [fieldSub_none_left, fieldMul_none_left]
  · rw [← hu]
    exact List.mem_map_of_mem _ hr
  · exact List.length_map rows _

/-- Witness for C3 on a one-row table whose key matches the solved
(business 1, bridge B1) pair. -/
theorem unreachable_barred_run_records_null_witness :
    (updateRow (detKey 1 "B1") (routeRowOf 1 none).2.1 (routeRowOf 1 none).2.2
        ⟨1, "B1", some 7, none, none, some 10, some 5, none, none⟩).noBridgeTime = none :=
  (unreachable_barred_run_records_null 1 "B1"
    [⟨1, "B1", some 7, none, none, some 10, some 5, none, none⟩]
    ⟨1, "B1", some 7, none, none, some 10, some 5, none, none⟩
    (List.mem_singleton.mpr rfl) rfl).1

/-- Counterexample for C4: aggregating zero detour records for bridge B1
yields no Detours_by_Bridge row at all, so the joined DET_TIME_SUM field
of that bridge is null (absent), not a zero-valued entry. -/
theorem detoursByBridge_empty_absent :
    Detours_by_Bridge [] "B1" = none ∧ detTimeSumField [] "B1" = none :=
  ⟨rfl, rfl⟩

/-- C4 (amended): a bridge with zero contributing rows is reportable as
zero-impact only for the traversal metrics: the per-direction traversal
fields joined from the frequency tables are null and the zeroNulls pass
coerces them to 0 (count and sums), while the detour-sum aggregation of
the detours script produces no row for such a bridge and its joined
detour-sum fields remain null (absent), never coerced to 0. -/
theorem zero_records_trav_zeroed_detour_absent (travRows detRecords : List BridgeBusRow)
    (b : String)
    (h1 : travRows.filter (fun r => r.brdgNbr = b) = [])
    (h2 : detRecords.filter (fun r => r.brdgNbr = b) = []) :
    zeroNulls (travBusField travRows b) = 0 ∧
    zeroNulls (travJobField travRows b) = 0 ∧
    zeroNulls (travJobDWField travRows b) = 0 ∧
    Detours_by_Bridge detRecords b = none ∧
    detTimeSumField detRecords b = none := by
  have hf : freqTable travRows b = none := by
    rw [freqTable]
    simp [h1]
  have hd : Detours_by_Bridge detRecords b = none := by
    rw [Detours_by_Bridge]
    simp [h2]
  have hb : travBusField travRows b = none := by rw [travBusField, hf]; rfl
  have hj : travJobField travRows b = none := by rw [travJobField, hf]; rfl
  have hw : travJobDWField travRows b = none := by rw [travJobDWField, hf]; rfl
  exact ⟨by rw [hb]; rfl, by rw [hj]; rfl, by rw [hw]; rfl, hd,
    by rw [detTimeSumField, hd]; rfl⟩

/-- Witness for C4 at bridge B9 with empty traversal and detour tables. -/
theorem zero_records_trav_zeroed_detour_absent_witness :
    zeroNulls (travBusField [] "B9") = 0 ∧ Detours_by_Bridge [] "B9" = none :=
  ⟨(zero_records_trav_zeroed_detour_absent [] [] "B9" rfl rfl).1,
   (zero_records_trav_zeroed_detour_absent [] [] "B9" rfl rfl).2.2.2.1⟩

/-- C9: a solved barred run is written back by matching the concatenated
string key. Every row whose Business_ID and BRDG_NBR concatenate to the
same string as the solved pair receives that run's barred cost and
geometry (so all duplicate rows for one pair receive the same value, and
a row is touched exactly when its concatenated key equals the solved
key), any other row is unchanged, and the updated row is a row of the
updated table. -/
theorem barred_writeback_by_concat_key (sb : Int) (sbr : String) (res : Option (ℚ × String))
    (rows : List BridgeBusRow) (r : BridgeBusRow) (hr : r ∈ rows) :
    (detKey r.businessID r.brdgNbr = detKey sb sbr →
      updateRow (detKey sb sbr) (routeRowOf sb res).2.1 (routeRowOf sb res).2.2 r =
        { r with noBridgeTime := (routeRowOf sb res).2.1, shape := (routeRowOf sb res).2.2 }) ∧
    (detKey r.businessID r.brdgNbr ≠ detKey sb sbr →
      updateRow (detKey sb sbr) (routeRowOf sb res).2.1 (routeRowOf sb res).2.2 r = r) ∧
    updateRow (detKey sb sbr) (routeRowOf sb res).2.1 (routeRowOf sb res).2.2 r
      ∈ applyBarredResult sb sbr res rows := by
  refine ⟨fun hm => ?_, fun hm => ?_, List.mem_map_of_mem _ hr⟩
  · rw [updateRow, if_pos hm]
  · rw [updateRow, if_neg hm]

/-- Witness for C9: a matching row of a one-row table receives the
solved cost 9 and geometry g. -/
theorem barred_writeback_by_concat_key_witness :
    updateRow (detKey 2 "B2") (routeRowOf 2 (some (9, "g"))).2.1
        (routeRowOf 2 (some (9, "g"))).2.2
        ⟨2, "B2", some 4, none, none, some 10, some 5, none, none⟩ =
      { (⟨2, "B2", some 4, none, none, some 10, some 5, none, none⟩ : BridgeBusRow) with
          noBridgeTime := (routeRowOf 2 (some (9, "g"))).2.1,
          shape := (routeRowOf 2 (some (9, "g"))).2.2 } :=
  (barred_writeback_by_concat_key 2 "B2" (some (9, "g"))
    [⟨2, "B2", some 4, none, none, some 10, some 5, none, none⟩]
    ⟨2, "B2", some 4, none, none, some 10, some 5, none, none⟩
    (List.mem_singleton.mpr rfl)).1 rfl

/-- C5: after the zeroNulls pass, each grand-total metric of a bridge
(business traversal count, job-weighted sum, distance-weighted job sum)
equals the sum over all destination directions of that bridge's joined
per-direction metric, with a missing per-direction value treated as
zero. -/
theorem grand_totals_sum_directions (tbls : List (List BridgeBusRow)) (b : String)
    (h : tbls ≠ []) :
    BUS_TRAV_SUM tbls b = some (specGrandTotal (perDirFields travBusField tbls b)) ∧
    JOB_TRAV_SUM tbls b = some (specGrandTotal (perDirFields travJobField tbls b)) ∧
    DISTW_JOB_TRAV_SUM tbls b = some (specGrandTotal (perDirFields travJobDWField tbls b)) := by
  have hne : ∀ f : List BridgeBusRow → String → Option ℚ, perDirFields f tbls b ≠ [] := by
    intro f hc
    exact h (List.map_eq_nil_iff.mp hc)
  exact ⟨code_sum_eq_specGrandTotal _ (hne travBusField),
    code_sum_eq_specGrandTotal _ (hne travJobField),
    code_sum_eq_specGrandTotal _ (hne travJobDWField)⟩

/-- Witness for C5 on a single direction whose bridge table has one row
crossing bridge B1. -/
theorem grand_totals_sum_directions_witness :
    BUS_TRAV_SUM [[⟨1, "B1", some 4, none, none, some 10, some 5, none, none⟩]] "B1" =
      some (specGrandTotal (perDirFields travBusField
        [[⟨1, "B1", some 4, none, none, some 10, some 5, none, none⟩]] "B1")) :=
  (grand_totals_sum_directions [[⟨1, "B1", some 4, none, none, some 10, some 5, none, none⟩]]
    "B1" (by simp)).1

/-- C6: the per-direction divided trucking intensity is attached to each
business before the per-direction routing loop as the raw trucking
intensity divided by the number of destination sets, and attaching it
changes no other business field (the raw value and identifier are
untouched). -/
theorem truckInt_divided_once (dests : List String) (b : Business) (h : dests ≠ []) :
    (addTruckInt dests.length b).truckInt = some (b.truckIntRaw / (dests.length : ℚ)) ∧
    (addTruckInt dests.length b).truckIntRaw = b.truckIntRaw ∧
    (addTruckInt dests.length b).objectID = b.objectID := by
  have hl : dests.length ≠ 0 := fun hc => h (List.length_eq_zero.mp hc)
  exact ⟨by rw [addTruckInt, if_neg hl], rfl, rfl⟩

/-- Witness for C6 with four destination directions and raw intensity
10: the divided intensity is 10 / 4. -/
theorem truckInt_divided_once_witness :
    (addTruckInt ["N", "S", "E", "W"].length ⟨1, 10, none⟩).truckInt =
      some ((10 : ℚ) / ((["N", "S", "E", "W"].length : ℕ) : ℚ)) :=
  (truckInt_divided_once ["N", "S", "E", "W"] ⟨1, 10, none⟩ (by simp)).1

/-- C7: for every detour row with a present detour time, the
JOB_DET_TIME field equals the detour time times the per-direction
trucking intensity and the DISTW_JOB_DET_TIME field equals the detour
time times the distance-weighted intensity; moreover, with trucking
intensity 10, cutoff 1 and power 1 at distance 2 miles the
distance-weighted intensity is 5. -/
theorem job_and_distw_formulas (r : BridgeBusRow) (t ti w : ℚ)
    (h1 : DET_TIME r = some t) (h2 : r.truckInt = some ti) (h3 : r.truckIntDW = some w) :
    JOB_DET_TIME r = some (t * ti) ∧ DISTW_JOB_DET_TIME r = some (t * w) ∧
    calcTruckIntDW 10 1 1 2 = some 5 := by
  refine ⟨?_, ?_, by norm_num [calcTruckIntDW]⟩
  · rw [JOB_DET_TIME, h1, h2]
    rfl
  · rw [DISTW_JOB_DET_TIME, h1, h3]
    rfl

/-- Witness for C7 at the scenario of the specification: detour time 3
(barred cost 10, baseline 7), trucking intensity 10, distance-weighted
intensity 5 give job detour time 30 and distance-weighted job detour
time 15. -/
theorem job_and_distw_formulas_witness :
    JOB_DET_TIME ⟨1, "B1", some 7, none, some 2, some 10, some 5, some 10, none⟩ = some 30 ∧
    DISTW_JOB_DET_TIME ⟨1, "B1", some 7, none, some 2, some 10, some 5, some 10, none⟩ =
      some 15 := by
  have h := job_and_distw_formulas ⟨1, "B1", some 7, none, some 2, some 10, some 5, some 10, none⟩
    3 10 5 (by norm_num [DET_TIME, fieldSub]) rfl rfl
  refine ⟨?_, ?_⟩
  · rw [h.1]
    norm_num
  · rw [h.2.1]
    norm_num

/-- C8: for every network source, the business-origin snap type is SHAPE
exactly when the source is not restricted (its name is in the permitted
local-street list) and NONE exactly when it is restricted, and the
sourceNames list records exactly that snap type for each source. -/
theorem snappable_iff_not_restricted (srcs : List String) (nm : String) (h : nm ∈ srcs) :
    ([nm, "SHAPE"] ∈ sourceNames snappables srcs ↔ ¬ restrictedSource snappables nm) ∧
    ([nm, "NONE"] ∈ sourceNames snappables srcs ↔ restrictedSource snappables nm) := by
  have hiff : ∀ s : String, [nm, s] ∈ sourceNames snappables srcs ↔
      snapTypeFor snappables nm = s := by
    intro s
    constructor
    · intro hmem
      obtain ⟨a, ha, he⟩ := List.mem_map.mp hmem
      obtain ⟨ha1, ha2⟩ : a = nm ∧ snapTypeFor snappables a = s := by
        simpa using he
      rw [← ha1]
      exact ha2
    · intro hs
      exact List.mem_map.mpr ⟨nm, h, by rw [hs]⟩
  have hne : ("SHAPE" : String) ≠ "NONE" := by decide
  rw [hiff, hiff, restrictedSource]
  by_cases hp : nm ∈ snappables
  · rw [snapTypeFor, if_pos hp]
    exact ⟨⟨fun _ hc => hc hp, fun _ => rfl⟩, ⟨fun hc => absurd hc hne, fun hc => absurd hp hc⟩⟩
  · rw [snapTypeFor, if_neg hp]
    exact ⟨⟨fun hc => absurd hc.symm hne, fun hc => absurd hp (fun hm => hc hm)⟩,
      ⟨fun _ => hp, fun _ => rfl⟩⟩

/-- Witness for C8 on a source list holding the permitted local-street
source and a restricted highway source. -/
theorem snappable_iff_not_restricted_witness :
    ["Network_LocalStreets", "SHAPE"]
        ∈ sourceNames snappables ["Network_LocalStreets", "Network_Highways"] ↔
      ¬ restrictedSource snappables "Network_LocalStreets" :=
  (snappable_iff_not_restricted ["Network_LocalStreets", "Network_Highways"]
    "Network_LocalStreets" (List.mem_cons_self _ _)).1

/-- C10: the business-to-bridge distance in miles is the straight-line
distance in map units divided by exactly 5280, so multiplying the mile
value back by 5280 recovers the map-unit value: the conversion assumes
the map unit is feet. -/
theorem busToBridgeMi_is_mu_div_5280 (mu : Option ℚ) (v : ℚ) (h : mu = some v) :
    calcBusToBridgeMi mu = some (v / 5280) ∧
    (∀ w : ℚ, calcBusToBridgeMi mu = some w → w * 5280 = v) := by
  subst h
  refine ⟨rfl, ?_⟩
  intro w hw
  have hv : v / 5280 = w := by
    simpa [calcBusToBridgeMi] using hw
  rw [← hv]
  exact div_mul_cancel₀ v (by norm_num)

/-- Witness for C10 at a map-unit distance of 10560 feet, two miles. -/
theorem busToBridgeMi_is_mu_div_5280_witness :
    calcBusToBridgeMi (some 10560) = some ((10560 : ℚ) / 5280) :=
  (busToBridgeMi_is_mu_div_5280 (some 10560) 10560 rfl).1

end AgBridges
